import Mathlib

/-!
Verification development for the multi-group token monitoring and alert
engine of this repository.  The definitions below are a shallow embedding of
the relevant code: `config.py` (configuration constants), `database.py`
(the persistent store over the `tokens` table), `token_tracker_enhanced.py`
(the in-memory tracking cache, refresh tick, threshold engine and cooldown
guard) and `token_tracker.py` (the legacy registration path with retries).

Conventions of the embedding:
  * Python floats for prices and market caps are modelled as rationals.
  * SQL `NULL`-able columns are `Option`-valued; Python falsy coercions
    (`x or y`) are modelled by the explicit `none`/`0` case split the code
    performs.
  * The rows of the SQLite `tokens` table are a `List TokenRow`; the
    dict-of-dicts tracking cache `tracking_tokens_by_group` is flattened to a
    `List CacheRow` of (chat id, contract, entry) rows, one per (group,
    contract) pair.
  * Wall-clock times are naturals; `datetime.now() - t < cooldown` becomes
    truncated subtraction, which decides the same comparison.
  * The async structure of a refresh tick is sequentialized exactly as the
    code awaits it: `_check_all_groups` gathers all per-asset update tasks
    and only then runs `_check_alerts_for_all_updated_tokens`.
-/

namespace Config

/-- Multiplier alert levels, `Config.ALERT_MULTIPLIERS` in `config.py`. -/
def ALERT_MULTIPLIERS : List ℚ :=
  [2, 3, 5, 8, 10, 15, 20, 25, 30, 35, 40, 45, 50, 55, 60, 65, 70, 75, 80, 85, 90, 95, 100]

/-- Loss alert levels, `Config.LOSS_THRESHOLDS` in `config.py`. -/
def LOSS_THRESHOLDS : List ℚ := [-30, -50, -70, -80, -85, -95]

/-- Auto-removal floor, `Config.AUTO_REMOVE_THRESHOLD` in `config.py`. -/
def AUTO_REMOVE_THRESHOLD : ℚ := -80

/-- Rug detection level, `Config.RUG_DETECTION_THRESHOLD` in `config.py`. -/
def RUG_DETECTION_THRESHOLD : ℚ := -90

/-- Seconds between same-family alerts, `Config.ALERT_COOLDOWN` in `config.py`. -/
def ALERT_COOLDOWN : ℕ := 60

end Config

/-- Result of one Price Provider query (`SolanaAPI.get_token_info`):
the fields the tracked code reads. -/
structure TokenInfo where
  symbol : String
  name : String
  price : ℚ
  marketCap : ℚ
  liquidityUsd : ℚ
  volume24h : ℚ
  priceChange24h : ℚ
deriving DecidableEq

/-- One row of the persistent store's `tokens` table (`database.py`,
`init_db`), restricted to the columns the monitored operations touch.
Columns the schema allows to be `NULL` are `Option`-valued. -/
structure TokenRow where
  contractAddress : String
  symbol : String
  name : String
  initialMcap : ℚ
  currentMcap : Option ℚ
  initialPrice : ℚ
  currentPrice : Option ℚ
  lowestMcap : Option ℚ
  lowestPrice : Option ℚ
  highestMcap : Option ℚ
  highestPrice : Option ℚ
  chatId : ℤ
  isActive : Bool
  multipliersAlerted : List ℚ
  lossAlertsSent : List ℚ
  confirmedScanMcap : Option ℚ
  scanConfirmationCount : Option ℕ
  userNotes : String
deriving DecidableEq

/-- Entry describing an auto-removed token, as `auto_remove_rugged_tokens`
returns it to the tracker. -/
structure RemovedToken where
  contractAddress : String
  symbol : String
  name : String
  chatId : ℤ
  lossPercentage : ℚ
  currentMcap : ℚ
  baselineMcap : ℚ
deriving DecidableEq

namespace Database

/-- The fresh row `Database.add_token` inserts (`database.py` lines 358-370):
current values and both extrema seeded from the initial observation,
`confirmed_scan_mcap = initial_mcap`, `scan_confirmation_count = 1`, and the
fired-threshold columns at their schema default `'[]'`. -/
def fresh_token_row (contract symbol name : String) (initialMcap initialPrice : ℚ)
    (chatId : ℤ) : TokenRow :=
  { contractAddress := contract
    symbol := symbol
    name := name
    initialMcap := initialMcap
    currentMcap := some initialMcap
    initialPrice := initialPrice
    currentPrice := some initialPrice
    lowestMcap := some initialMcap
    lowestPrice := some initialPrice
    highestMcap := some initialMcap
    highestPrice := some initialPrice
    chatId := chatId
    isActive := true
    multipliersAlerted := []
    lossAlertsSent := []
    confirmedScanMcap := some initialMcap
    scanConfirmationCount := some 1
    userNotes := "" }

/-- `Database.add_token`: `INSERT OR REPLACE` under the
`UNIQUE(contract_address, chat_id)` constraint.  Any existing row for the
(contract, chat) key is replaced by the fresh row; other rows are kept. -/
def add_token (contract symbol name : String) (initialMcap initialPrice : ℚ)
    (chatId : ℤ) (db : List TokenRow) : List TokenRow :=
  db.filter (fun r => decide ¬(r.contractAddress = contract ∧ r.chatId = chatId)) ++
    [fresh_token_row contract symbol name initialMcap initialPrice chatId]

/-- The per-row body of `Database.update_token_price` (`database.py` lines
391-425): extrema widened with `NULL` columns seeded from the new value, and
the scan-confirmation bookkeeping (`scan_count is None or scan_count < 3`
takes the new value and increments; otherwise `confirmed_mcap or current_mcap`
keeps the confirmed value, with Python's falsy-`0` coercion explicit). -/
def update_token_price_row (m p : ℚ) (r : TokenRow) : TokenRow :=
  { r with
    currentMcap := some m
    currentPrice := some p
    lowestMcap := some (min (r.lowestMcap.getD m) m)
    lowestPrice := some (min (r.lowestPrice.getD p) p)
    highestMcap := some (max (r.highestMcap.getD m) m)
    highestPrice := some (max (r.highestPrice.getD p) p)
    confirmedScanMcap :=
      match r.scanConfirmationCount with
      | none => some m
      | some n =>
        if n < 3 then some m
        else
          match r.confirmedScanMcap with
          | none => some m
          | some c => if c = 0 then some m else some c
    scanConfirmationCount :=
      match r.scanConfirmationCount with
      | none => some 1
      | some n => if n < 3 then some (n + 1) else some n }

/-- `Database.update_token_price`: updates every active row of the contract
across all groups (`WHERE contract_address = ? AND is_active = 1`). -/
def update_token_price (contract : String) (m p : ℚ) (db : List TokenRow) :
    List TokenRow :=
  db.map fun r =>
    if r.contractAddress = contract ∧ r.isActive = true then update_token_price_row m p r
    else r

/-- `Database.update_multipliers_alerted`: `UPDATE tokens SET
multipliers_alerted = ? WHERE contract_address = ?` — note the `WHERE`
clause has no `chat_id`, so every group's row of the contract is overwritten
with the given list. -/
def update_multipliers_alerted (contract : String) (ms : List ℚ)
    (db : List TokenRow) : List TokenRow :=
  db.map fun r =>
    if r.contractAddress = contract then { r with multipliersAlerted := ms } else r

/-- `Database.update_loss_alerts_sent`: `UPDATE tokens SET loss_alerts_sent
= ? WHERE contract_address = ?` — again with no `chat_id` in the `WHERE`
clause. -/
def update_loss_alerts_sent (contract : String) (ls : List ℚ)
    (db : List TokenRow) : List TokenRow :=
  db.map fun r =>
    if r.contractAddress = contract then { r with lossAlertsSent := ls } else r

/-- The selection predicate of `auto_remove_rugged_tokens` (`database.py`
lines 662-675): active, with a known positive `current_mcap`, and a loss
relative to the confirmed baseline (when present and positive) or the
initial market cap at or below the threshold. -/
def auto_remove_condition (threshold : ℚ) (r : TokenRow) : Bool :=
  r.isActive &&
    match r.currentMcap with
    | none => false
    | some m =>
      decide (0 < m) &&
        match r.confirmedScanMcap with
        | some c => decide (0 < c) && decide ((m - c) / c * 100 ≤ threshold)
        | none =>
          decide (0 < r.initialMcap) &&
            decide ((m - r.initialMcap) / r.initialMcap * 100 ≤ threshold)

/-- The deactivation `auto_remove_rugged_tokens` applies to a selected row:
`is_active = FALSE` and an audit note appended to `user_notes` (the numeric
rendering of the percentage in the note is elided as presentation). -/
def auto_removed_row (r : TokenRow) : TokenRow :=
  { r with isActive := false, userNotes := r.userNotes ++ " [AUTO-REMOVED: loss]" }

/-- The removal notice data built for a selected row (`database.py` lines
680-702): baseline is the confirmed scan mcap when present and positive,
else the initial mcap; the loss percentage falls back to `-100` for a
non-positive baseline. -/
def removed_token_info (r : TokenRow) : RemovedToken :=
  let m := r.currentMcap.getD 0
  let baseline :=
    match r.confirmedScanMcap with
    | some c => if 0 < c then c else r.initialMcap
    | none => r.initialMcap
  { contractAddress := r.contractAddress
    symbol := r.symbol
    name := r.name
    chatId := r.chatId
    lossPercentage := if 0 < baseline then (m - baseline) / baseline * 100 else -100
    currentMcap := m
    baselineMcap := baseline }

/-- `Database.auto_remove_rugged_tokens`: deactivates every selected row
(rows are keyed by unique ids, so the per-id updates are a map) and returns
the removal notices. -/
def auto_remove_rugged_tokens (threshold : ℚ) (db : List TokenRow) :
    List TokenRow × List RemovedToken :=
  (db.map fun r => if auto_remove_condition threshold r then auto_removed_row r else r,
   (db.filter (auto_remove_condition threshold)).map removed_token_info)

end Database

/-- One tracking-cache entry, the `token_data` dict a group holds for a
contract in `tracking_tokens_by_group` (`token_tracker_enhanced.py`,
`add_token` lines 111-126). -/
structure CacheEntry where
  name : String
  symbol : String
  initialPrice : ℚ
  initialMcap : ℚ
  confirmedScanMcap : ℚ
  currentPrice : ℚ
  currentMcap : ℚ
  highestMcap : ℚ
  lowestMcap : ℚ
  lossAlertsSent : List ℚ
deriving DecidableEq

/-- One (group, contract) pair of the flattened tracking cache. -/
structure CacheRow where
  chatId : ℤ
  contract : String
  data : CacheEntry
deriving DecidableEq

/-- The flattened `tracking_tokens_by_group` cache. -/
abbrev Cache := List CacheRow

/-- Per-(contract, group) alerts produced by one evaluation pass
(`_check_all_alerts_for_token_in_group`). -/
structure PairAlerts where
  contract : String
  chatId : ℤ
  multiplierAlerts : List ℚ
  lossAlerts : List ℚ
  rugAlert : Bool
deriving DecidableEq

namespace Tracker

/-- The alert-family keys used in `last_alert_time[contract][chat_id]`. -/
def multiplier_family : String := "multiplier"

/-- The loss alert family key. -/
def loss_family : String := "loss"

/-- The rug-detection alert family key. -/
def rug_family : String := "rug"

/-- Key of the transient cooldown map: (contract, chat id, alert family). -/
abbrev AlertKey := String × ℤ × String

/-- The transient `last_alert_time` map, newest binding first (a Python dict
assignment is an upsert; consing a fresh binding with first-match lookup
models it). -/
abbrev LastAlertMap := List (AlertKey × ℕ)

/-- First-match lookup in the `last_alert_time` map. -/
def last_alert_lookup (lat : LastAlertMap) (k : AlertKey) : Option ℕ :=
  match lat with
  | [] => none
  | (k2, t) :: rest => if k2 = k then some t else last_alert_lookup rest k

/-- `TokenTracker._is_alert_on_cooldown`: true when the family fired within
the cooldown window.  `datetime.now() - last < window` becomes truncated
subtraction on naturals, which decides the same comparison for a clock that
never runs backwards. -/
def is_alert_on_cooldown (cooldownWin now : ℕ) (lat : LastAlertMap)
    (contract : String) (chatId : ℤ) (family : String) : Bool :=
  match last_alert_lookup lat (contract, chatId, family) with
  | none => false
  | some t => decide (now - t < cooldownWin)

/-- `TokenTracker._set_alert_cooldown`: record the family as fired now. -/
def set_alert_cooldown (now : ℕ) (lat : LastAlertMap) (contract : String)
    (chatId : ℤ) (family : String) : LastAlertMap :=
  ((contract, chatId, family), now) :: lat

/-- The baseline both alert checks read:
`token_data.get('confirmed_scan_mcap') or token_data['initial_mcap']` — the
Python `or` falls back to the initial mcap when the confirmed value is the
falsy `0`. -/
def baseline_mcap (e : CacheEntry) : ℚ :=
  if e.confirmedScanMcap = 0 then e.initialMcap else e.confirmedScanMcap

/-- One step of the threshold loops in `_check_multiplier_alerts_for_group`
and `_check_loss_alerts_for_group`: fire the level when it passes the
comparison and is not already in the sent set, appending it to both the
fired list and the sent set. -/
def fire_step (pass : ℚ → Bool) (st : List ℚ × List ℚ) (lvl : ℚ) : List ℚ × List ℚ :=
  if pass lvl = true ∧ lvl ∉ st.2 then (st.1 ++ [lvl], st.2 ++ [lvl]) else st

/-- The threshold loop over the configured levels, from an empty fired list
and the already-sent set. -/
def fire_thresholds (pass : ℚ → Bool) (levels sent : List ℚ) : List ℚ × List ℚ :=
  levels.foldl (fire_step pass) ([], sent)

/-- `TokenTracker._check_multiplier_alerts_for_group`: guard
`baseline_mcap <= 0`, then the cooldown gate, then fire every configured
multiplier level `lvl` with `multiplier >= lvl` not already sent.  Returns
(alerts fired, updated sent set, updated cooldown map); the cooldown is
(re)stamped at `now` when anything fired. -/
def check_multiplier_alerts_for_group (cooldownWin now : ℕ) (lat : LastAlertMap)
    (contract : String) (chatId : ℤ) (e : CacheEntry) (sent : List ℚ) :
    List ℚ × List ℚ × LastAlertMap :=
  let baseline := baseline_mcap e
  if baseline ≤ 0 then ([], sent, lat)
  else if is_alert_on_cooldown cooldownWin now lat contract chatId multiplier_family then
    ([], sent, lat)
  else
    let res := fire_thresholds (fun lvl => decide (lvl ≤ e.currentMcap / baseline))
      Config.ALERT_MULTIPLIERS sent
    (res.1, res.2,
     if res.1 = [] then lat
     else set_alert_cooldown now lat contract chatId multiplier_family)

/-- `TokenTracker._check_loss_alerts_for_group`: same gates, firing every
configured loss level `lvl` with `loss_percentage <= lvl` not already in the
entry's `loss_alerts_sent`; the updated list is written back into the
entry. -/
def check_loss_alerts_for_group (cooldownWin now : ℕ) (lat : LastAlertMap)
    (contract : String) (chatId : ℤ) (e : CacheEntry) :
    List ℚ × CacheEntry × LastAlertMap :=
  let baseline := baseline_mcap e
  if baseline ≤ 0 then ([], e, lat)
  else if is_alert_on_cooldown cooldownWin now lat contract chatId loss_family then
    ([], e, lat)
  else
    let res := fire_thresholds
      (fun lvl => decide ((e.currentMcap - baseline) / baseline * 100 ≤ lvl))
      Config.LOSS_THRESHOLDS e.lossAlertsSent
    (res.1, { e with lossAlertsSent := res.2 },
     if res.1 = [] then lat
     else set_alert_cooldown now lat contract chatId loss_family)

/-- `TokenTracker._check_rug_detection_alert`: at most one rug alert per
(contract, group), gated by the `rug_alerts_sent` set and the rug-family
cooldown. -/
def check_rug_detection_alert (cooldownWin now : ℕ) (lat : LastAlertMap)
    (rugSent : List (String × ℤ)) (contract : String) (chatId : ℤ)
    (lossPercentage : ℚ) : Bool × List (String × ℤ) × LastAlertMap :=
  if lossPercentage ≤ Config.RUG_DETECTION_THRESHOLD then
    if (contract, chatId) ∈ rugSent then (false, rugSent, lat)
    else if is_alert_on_cooldown cooldownWin now lat contract chatId rug_family then
      (false, rugSent, lat)
    else (true, (contract, chatId) :: rugSent,
      set_alert_cooldown now lat contract chatId rug_family)
  else (false, rugSent, lat)

/-- The fresh cache entry `add_token` stores for a newly registered token:
current values, both extrema and the confirmed scan mcap all seeded from the
first reading, and no loss alerts sent. -/
def fresh_cache_entry (i : TokenInfo) : CacheEntry :=
  { name := i.name
    symbol := i.symbol
    initialPrice := i.price
    initialMcap := i.marketCap
    confirmedScanMcap := i.marketCap
    currentPrice := i.price
    currentMcap := i.marketCap
    highestMcap := i.marketCap
    lowestMcap := i.marketCap
    lossAlertsSent := [] }

/-- `TokenTracker._update_token_across_all_groups`: assign the fetched
current values and widen the extrema of the entry. -/
def apply_price_update (m p : ℚ) (e : CacheEntry) : CacheEntry :=
  { e with
    currentMcap := m
    currentPrice := p
    highestMcap := max e.highestMcap m
    lowestMcap := min e.lowestMcap m }

/-- The fan-out of `_update_token_across_all_groups` over the whole cache:
every group's row of the contract receives the same fetched values. -/
def update_token_across_all_groups (contract : String) (m p : ℚ)
    (cache : Cache) : Cache :=
  cache.map fun r =>
    if r.contract = contract then { r with data := apply_price_update m p r.data } else r

/-- One observation of a row as `_update_single_token_realtime` applies it: a
successful fetch (`market_cap > 0`) updates the entry, a failed or empty
fetch leaves it unchanged. -/
def apply_observation (e : CacheEntry) (obs : Option (ℚ × ℚ)) : CacheEntry :=
  match obs with
  | some (m, p) => if 0 < m then apply_price_update m p e else e
  | none => e

/-- A row's cache entry after a sequence of (possibly failed) observations. -/
def run_observations (e : CacheEntry) (l : List (Option (ℚ × ℚ))) : CacheEntry :=
  l.foldl apply_observation e

/-- The dedup step of `_check_all_groups` (lines 206-213): the keys of
`all_unique_tokens`, i.e. the distinct contracts across all groups in
iteration order. -/
def unique_contracts (cache : Cache) : List String :=
  cache.foldl (fun acc r => if r.contract ∈ acc then acc else acc ++ [r.contract]) []

/-- The Price Provider work set of one refresh tick: one
`api.get_token_info` call is issued per element (one update task per key of
`all_unique_tokens`, each task making exactly one call). -/
def tick_provider_calls (cache : Cache) : List String := unique_contracts cache

/-- The effect of one asset's update task on the cache: on a successful
fetch with positive market cap, fan the result out to every group tracking
the contract; otherwise leave the cache unchanged. -/
def tick_fetch_step (fetch : String → Option (ℚ × ℚ)) (cache : Cache)
    (contract : String) : Cache :=
  match fetch contract with
  | some (m, p) => if 0 < m then update_token_across_all_groups contract m p cache else cache
  | none => cache

/-- The update phase of one refresh tick (`_check_all_groups`): all unique
assets are fetched and fanned out before any alert evaluation begins. -/
def tick_update_phase (fetch : String → Option (ℚ × ℚ)) (cache : Cache) : Cache :=
  (unique_contracts cache).foldl (tick_fetch_step fetch) cache

/-- Transient alert state threaded through an evaluation pass: the
in-memory `sent_alerts` multiplier sets, the `last_alert_time` cooldown map
and the `rug_alerts_sent` set. -/
structure AlertState where
  sentAlerts : List ((String × ℤ) × List ℚ)
  lat : LastAlertMap
  rugSent : List (String × ℤ)
deriving DecidableEq

/-- First-match lookup of a pair's sent multiplier set, defaulting to the
empty set as the code initializes it. -/
def sent_alerts_lookup (s : List ((String × ℤ) × List ℚ)) (k : String × ℤ) : List ℚ :=
  match s with
  | [] => []
  | (k2, v) :: rest => if k2 = k then v else sent_alerts_lookup rest k

/-- `TokenTracker._check_all_alerts_for_token_in_group`: multiplier check,
then loss check, then rug detection (on the baseline-relative loss, guarded
by `baseline_mcap > 0`), threading the alert state. -/
def check_all_alerts_for_token_in_group (cooldownWin now : ℕ) (st : AlertState)
    (r : CacheRow) : PairAlerts × CacheRow × AlertState :=
  let sent := sent_alerts_lookup st.sentAlerts (r.contract, r.chatId)
  let mres := check_multiplier_alerts_for_group cooldownWin now st.lat r.contract
    r.chatId r.data sent
  let lres := check_loss_alerts_for_group cooldownWin now mres.2.2 r.contract
    r.chatId r.data
  let e2 := lres.2.1
  let baseline := baseline_mcap e2
  let rres :=
    if 0 < baseline then
      check_rug_detection_alert cooldownWin now lres.2.2 st.rugSent r.contract
        r.chatId ((e2.currentMcap - baseline) / baseline * 100)
    else (false, st.rugSent, lres.2.2)
  ({ contract := r.contract, chatId := r.chatId, multiplierAlerts := mres.1,
     lossAlerts := lres.1, rugAlert := rres.1 },
   { r with data := e2 },
   { sentAlerts := ((r.contract, r.chatId), mres.2.1) :: st.sentAlerts,
     lat := rres.2.2, rugSent := rres.2.1 })

/-- The alert phase of one refresh tick
(`_check_alerts_for_all_updated_tokens`): evaluate every (group, contract)
pair of the cache in order, accumulating the fired alerts, the rewritten
cache rows and the final alert state. -/
def alert_phase (cooldownWin now : ℕ) (st0 : AlertState) (cache : Cache) :
    List PairAlerts × Cache × AlertState :=
  cache.foldl
    (fun acc r =>
      let res := check_all_alerts_for_token_in_group cooldownWin now acc.2.2 r
      (acc.1 ++ [res.1], acc.2.1 ++ [res.2.1], res.2.2))
    (([] : List PairAlerts), ([] : Cache), st0)

/-- One full refresh tick of `_check_all_groups`: the update phase for every
unique asset completes (the code awaits `asyncio.gather` on all update
tasks) and only then does `_check_alerts_for_all_updated_tokens` run the
alert phase over the updated cache. -/
def check_all_groups_tick (fetch : String → Option (ℚ × ℚ)) (cooldownWin now : ℕ)
    (st : AlertState) (cache : Cache) : List PairAlerts × Cache × AlertState :=
  alert_phase cooldownWin now st (tick_update_phase fetch cache)

end Tracker

/-- Outcome of a registration request, distinguishing the two failure
branches of the trackers' `add_token` (both surface as `return False`; the
branch taken is the distinguishable reason). -/
inductive RegResult where
  | ok
  | alreadyTracked
  | noMarketData
deriving DecidableEq

/-- Validity test both trackers apply to a provider reading:
`token_info and token_info.get('market_cap', 0) > 0`. -/
def valid_info (info : Option TokenInfo) : Bool :=
  match info with
  | none => false
  | some i => decide (0 < i.marketCap)

namespace LegacyTracker

/-- The reading the retry loop of `token_tracker.py` `add_token` (lines
54-59) ends with: the first valid response of the up to three attempts, or
the last attempt's response when none is valid. -/
def first_valid_info (r1 r2 r3 : Option TokenInfo) : Option TokenInfo :=
  if valid_info r1 then r1 else if valid_info r2 then r2 else if valid_info r3 then r3 else r3

/-- How many Price Provider calls the legacy `add_token` makes: none when
the contract is already tracked (the duplicate check precedes the loop),
otherwise the loop stops at the first valid reading and never exceeds three
attempts. -/
def provider_calls (alreadyTracked : Bool) (r1 r2 : Option TokenInfo) : ℕ :=
  if alreadyTracked then 0
  else if valid_info r1 then 1
  else if valid_info r2 then 2
  else 3

/-- `token_tracker.py` `add_token`: duplicate check against the in-memory
cache, then up to three provider attempts; an invalid final reading returns
the failure with no store write and no cache insertion, a valid one persists
the fresh row and registers the entry. -/
def add_token (r1 r2 r3 : Option TokenInfo) (contract : String) (chatId : ℤ)
    (tracking : List (String × CacheEntry)) (db : List TokenRow) :
    RegResult × List (String × CacheEntry) × List TokenRow :=
  if contract ∈ tracking.map Prod.fst then (RegResult.alreadyTracked, tracking, db)
  else
    match first_valid_info r1 r2 r3 with
    | some i =>
      if 0 < i.marketCap then
        (RegResult.ok, tracking ++ [(contract, Tracker.fresh_cache_entry i)],
         Database.add_token contract i.symbol i.name i.marketCap i.price chatId db)
      else (RegResult.noMarketData, tracking, db)
    | none => (RegResult.noMarketData, tracking, db)

end LegacyTracker

namespace Tracker

/-- `token_tracker_enhanced.py` `add_token` (lines 73-145): the duplicate
check is against the in-memory group cache only; a single provider reading
is taken, an invalid one fails with no store write and no cache insertion,
and a valid one persists the fresh row (the store replaces any stale row for
the pair) and registers the cache entry for the group. -/
def add_token (resp : Option TokenInfo) (contract : String) (chatId : ℤ)
    (cache : Cache) (db : List TokenRow) : RegResult × Cache × List TokenRow :=
  if ∃ r ∈ cache, r.chatId = chatId ∧ r.contract = contract then
    (RegResult.alreadyTracked, cache, db)
  else
    match resp with
    | some i =>
      if 0 < i.marketCap then
        (RegResult.ok,
         cache ++ [{ chatId := chatId, contract := contract, data := fresh_cache_entry i }],
         Database.add_token contract i.symbol i.name i.marketCap i.price chatId db)
      else (RegResult.noMarketData, cache, db)
    | none => (RegResult.noMarketData, cache, db)

end Tracker

/-! Concrete inputs used to evaluate the development on closed instances. -/

/-- A concrete contract identifier. -/
def exContract : String := "X"

/-- A concrete token symbol. -/
def exSym : String := "S"

/-- A concrete token name. -/
def exName : String := "N"

/-- A concrete provider reading with a positive market cap. -/
def exInfo : TokenInfo :=
  { symbol := exSym, name := exName, price := 2, marketCap := 2000,
    liquidityUsd := 50, volume24h := 10, priceChange24h := 0 }

/-- A cache entry one tick after a fixed confirmed baseline of 1000000 with
the market cap jumped to 6000000. -/
def exEntry : CacheEntry :=
  { name := exName, symbol := exSym, initialPrice := 1, initialMcap := 1000000,
    confirmedScanMcap := 1000000, currentPrice := 6, currentMcap := 6000000,
    highestMcap := 6000000, lowestMcap := 1000000, lossAlertsSent := [] }

/-- A cooldown map in which the multiplier family for `exContract` in group 1
last fired at time 0. -/
def exLat : Tracker.LastAlertMap := [((exContract, 1, Tracker.multiplier_family), 0)]

/-- The same cooldown map with the rug family also stamped at time 0. -/
def exLatRug : Tracker.LastAlertMap := ((exContract, 1, Tracker.rug_family), 0) :: exLat

/-- A cache entry 50 percent below its confirmed baseline of 1000000. -/
def exLossEntry : CacheEntry :=
  { name := exName, symbol := exSym, initialPrice := 1, initialMcap := 1000000,
    confirmedScanMcap := 1000000, currentPrice := 1, currentMcap := 500000,
    highestMcap := 1000000, lowestMcap := 500000, lossAlertsSent := [] }

/-- A cache entry for group 1 of `exContract`. -/
def exEntryA : CacheEntry :=
  { name := exName, symbol := exSym, initialPrice := 1, initialMcap := 1000,
    confirmedScanMcap := 1000, currentPrice := 1, currentMcap := 1000,
    highestMcap := 1500, lowestMcap := 800, lossAlertsSent := [] }

/-- A cache entry for group 2 of the same contract, with a staler current
value. -/
def exEntryB : CacheEntry := { exEntryA with currentMcap := 900 }

/-- A two-group cache both tracking `exContract`. -/
def exCache : Cache :=
  [{ chatId := 1, contract := exContract, data := exEntryA },
   { chatId := 2, contract := exContract, data := exEntryB }]

/-- A provider returning market cap 2000 and price 2 for `exContract` and
nothing for any other contract. -/
def exFetch : String → Option (ℚ × ℚ) :=
  fun s => if s = exContract then some (2000, 2) else none

/-- Group 1's row of `exCache` after the tick's update phase. -/
def exUpdatedRowA : CacheRow :=
  { chatId := 1, contract := exContract, data := Tracker.apply_price_update 2000 2 exEntryA }

/-- Registration of `exContract` at market cap 1000 (first observation). -/
def c2row0 : TokenRow := Database.fresh_token_row exContract exSym exName 1000 1 7

/-- Store row after the second observation, 1050. -/
def c2row1 : TokenRow := Database.update_token_price_row 1050 1 c2row0

/-- Store row after the third observation, 1200. -/
def c2row2 : TokenRow := Database.update_token_price_row 1200 1 c2row1

/-- Store row after the fourth observation, 900. -/
def c2row3 : TokenRow := Database.update_token_price_row 900 1 c2row2

/-- Group 1's store row of `exContract` with fired loss set {-30}. -/
def c3rowA : TokenRow :=
  { Database.fresh_token_row exContract exSym exName 1000 1 1 with
    lossAlertsSent := [-30], currentMcap := some 500 }

/-- Group 2's store row of the same contract with the larger fired loss set
{-30, -50}. -/
def c3rowB : TokenRow := { c3rowA with chatId := 2, lossAlertsSent := [-30, -50] }

/-- A store holding both groups' rows of `exContract`. -/
def c3db : List TokenRow := [c3rowA, c3rowB]

/-- An active store row 90 percent below its confirmed baseline. -/
def c4row : TokenRow :=
  { Database.fresh_token_row exContract exSym exName 1000 1 1 with
    currentMcap := some 100, scanConfirmationCount := some 3 }

/-- A store holding a stale row for the (contract, chat) key (7) that a
re-registration will replace. -/
def c10db : List TokenRow :=
  [{ Database.fresh_token_row exContract exSym exName 1000 1 7 with
     multipliersAlerted := [2, 3], lossAlertsSent := [-30],
     scanConfirmationCount := some 3, highestMcap := some 5000 }]

/-- A sequence of observations with one failed fetch. -/
def exObs : List (Option (ℚ × ℚ)) := [some (1200, 2), none, some (700, 1)]

/-! Helper lemmas about the threshold-firing loop. -/

/-- Generalized shape of the threshold loop: starting from fired prefix
`acc` and cumulative sent set `all` (which holds exactly the original sent
set plus the fired prefix), the loop fires exactly the not-yet-sent passing
levels, and the final sent set is the original one plus everything fired. -/
theorem fire_fold_spec (pass : ℚ → Bool) (sent0 : List ℚ) :
    ∀ (levels acc all : List ℚ), levels.Nodup →
      (∀ x ∈ acc, x ∉ levels) →
      (∀ x, x ∈ all ↔ x ∈ sent0 ∨ x ∈ acc) →
      (levels.foldl (Tracker.fire_step pass) (acc, all)).1
          = acc ++ levels.filter (fun l => pass l && decide (l ∉ sent0)) ∧
      ∀ x, x ∈ (levels.foldl (Tracker.fire_step pass) (acc, all)).2 ↔
          x ∈ sent0 ∨ x ∈ (levels.foldl (Tracker.fire_step pass) (acc, all)).1 := by
  intro levels
  induction levels with
  | nil =>
    intro acc all _ _ hall
    refine ⟨by simp, ?_⟩
    intro x
    simpa using hall x
  | cons l ls ih =>
    intro acc all hnd hdis hall
    rcases List.nodup_cons.mp hnd with ⟨hl, hnd2⟩
    rw [List.foldl_cons]
    by_cases hc : pass l = true ∧ l ∉ all
    · have hstep : Tracker.fire_step pass (acc, all) l = (acc ++ [l], all ++ [l]) := by
        unfold Tracker.fire_step
        rw [if_pos hc]
      rw [hstep]
      have hls0 : l ∉ sent0 := fun h => hc.2 ((hall l).mpr (Or.inl h))
      have hdis2 : ∀ x ∈ acc ++ [l], x ∉ ls := by
        intro x hx
        rcases List.mem_append.mp hx with hx | hx
        · exact fun h => hdis x hx (List.mem_cons_of_mem _ h)
        · rw [List.mem_singleton] at hx
          subst hx
          exact hl
      have hall2 : ∀ x, x ∈ all ++ [l] ↔ x ∈ sent0 ∨ x ∈ acc ++ [l] := by
        intro x
        simp only [List.mem_append, List.mem_singleton, hall x]
        tauto
      obtain ⟨h1, h2⟩ := ih (acc ++ [l]) (all ++ [l]) hnd2 hdis2 hall2
      refine ⟨?_, h2⟩
      rw [h1, List.filter_cons_of_pos (by simp [hc.1, hls0]), List.append_assoc,
        List.singleton_append]
    · have hstep : Tracker.fire_step pass (acc, all) l = (acc, all) := by
        unfold Tracker.fire_step
        rw [if_neg hc]
      rw [hstep]
      have hdis2 : ∀ x ∈ acc, x ∉ ls :=
        fun x hx h => hdis x hx (List.mem_cons_of_mem _ h)
      obtain ⟨h1, h2⟩ := ih acc all hnd2 hdis2 hall
      refine ⟨?_, h2⟩
      rw [h1, List.filter_cons_of_neg]
      intro hcd
      simp only [Bool.and_eq_true, decide_eq_true_eq] at hcd
      apply hc
      refine ⟨hcd.1, fun hmem => ?_⟩
      rcases (hall l).mp hmem with h | h
      · exact hcd.2 h
      · exact hdis l h (List.mem_cons_self l ls)

/-- The threshold loop fires exactly the passing levels not already sent. -/
theorem fire_thresholds_fst (pass : ℚ → Bool) (levels sent : List ℚ)
    (hnd : levels.Nodup) :
    (Tracker.fire_thresholds pass levels sent).1
        = levels.filter (fun l => pass l && decide (l ∉ sent)) := by
  have h := fire_fold_spec pass sent levels [] sent hnd (by simp) (by simp)
  simpa [Tracker.fire_thresholds] using h.1

/-- The threshold loop's final sent set is the original set plus the fired
levels. -/
theorem fire_thresholds_snd_mem (pass : ℚ → Bool) (levels sent : List ℚ)
    (hnd : levels.Nodup) (x : ℚ) :
    x ∈ (Tracker.fire_thresholds pass levels sent).2 ↔
      x ∈ sent ∨ x ∈ (Tracker.fire_thresholds pass levels sent).1 := by
  have h := fire_fold_spec pass sent levels [] sent hnd (by simp) (by simp)
  exact h.2 x

/-- Every passing level of the list ends up in the final sent set. -/
theorem fire_thresholds_saturated (pass : ℚ → Bool) (levels sent : List ℚ)
    (hnd : levels.Nodup) (l : ℚ) (hl : l ∈ levels) (hp : pass l = true) :
    l ∈ (Tracker.fire_thresholds pass levels sent).2 := by
  rw [fire_thresholds_snd_mem pass levels sent hnd]
  by_cases hs : l ∈ sent
  · exact Or.inl hs
  · refine Or.inr ?_
    rw [fire_thresholds_fst pass levels sent hnd]
    exact List.mem_filter.mpr ⟨hl, by simp [hp, hs]⟩

/-- Re-running the threshold loop on its own output fires nothing. -/
theorem fire_thresholds_idem (pass : ℚ → Bool) (levels sent : List ℚ)
    (hnd : levels.Nodup) :
    (Tracker.fire_thresholds pass levels
        (Tracker.fire_thresholds pass levels sent).2).1 = [] := by
  rw [fire_thresholds_fst pass levels _ hnd]
  rw [List.filter_eq_nil_iff]
  intro l hl
  simp only [Bool.and_eq_true, decide_eq_true_eq, not_and]
  intro hp hmem
  exact hmem (fire_thresholds_saturated pass levels sent hnd l hl hp)

/-- The configured multiplier levels are pairwise distinct. -/
theorem alert_multipliers_nodup : Config.ALERT_MULTIPLIERS.Nodup := by decide

/-- The configured loss levels are pairwise distinct. -/
theorem loss_thresholds_nodup : Config.LOSS_THRESHOLDS.Nodup := by decide

/-! Helper lemmas about the dedup step and the tick's update phase. -/

/-- Membership in the dedup fold: exactly the accumulator plus the contracts
of the rows. -/
theorem unique_contracts_fold_mem :
    ∀ (l : Cache) (acc : List String) (x : String),
      x ∈ l.foldl (fun acc r => if r.contract ∈ acc then acc else acc ++ [r.contract]) acc ↔
        x ∈ acc ∨ ∃ r ∈ l, r.contract = x := by
  intro l
  induction l with
  | nil => intro acc x; simp
  | cons r rest ih =>
    intro acc x
    rw [List.foldl_cons, ih]
    by_cases hr : r.contract ∈ acc
    · rw [if_pos hr]
      constructor
      · rintro (hx | ⟨r2, hr2, he⟩)
        · exact Or.inl hx
        · exact Or.inr ⟨r2, List.mem_cons_of_mem r hr2, he⟩
      · rintro (hx | ⟨r2, hr2, he⟩)
        · exact Or.inl hx
        · rcases List.mem_cons.mp hr2 with h | h
          · subst h; subst he; exact Or.inl hr
          · exact Or.inr ⟨r2, h, he⟩
    · rw [if_neg hr]
      constructor
      · rintro (hx | ⟨r2, hr2, he⟩)
        · rcases List.mem_append.mp hx with h | h
          · exact Or.inl h
          · rw [List.mem_singleton] at h
            exact Or.inr ⟨r, List.mem_cons_self r rest, h.symm⟩
        · exact Or.inr ⟨r2, List.mem_cons_of_mem r hr2, he⟩
      · rintro (hx | ⟨r2, hr2, he⟩)
        · exact Or.inl (List.mem_append.mpr (Or.inl hx))
        · rcases List.mem_cons.mp hr2 with h | h
          · subst h
            subst he
            exact Or.inl (List.mem_append.mpr (Or.inr (List.mem_singleton.mpr rfl)))
          · exact Or.inr ⟨r2, h, he⟩

/-- The dedup fold keeps the accumulator duplicate-free. -/
theorem unique_contracts_fold_nodup :
    ∀ (l : Cache) (acc : List String), acc.Nodup →
      (l.foldl (fun acc r => if r.contract ∈ acc then acc else acc ++ [r.contract]) acc).Nodup := by
  intro l
  induction l with
  | nil => intro acc h; simpa using h
  | cons r rest ih =>
    intro acc h
    rw [List.foldl_cons]
    by_cases hr : r.contract ∈ acc
    · rw [if_pos hr]; exact ih acc h
    · rw [if_neg hr]
      refine ih _ ?_
      simp [List.nodup_append, h, hr]

/-- A contract is in the tick's work set exactly when some group tracks it. -/
theorem mem_unique_contracts (cache : Cache) (c : String) :
    c ∈ Tracker.unique_contracts cache ↔ ∃ r ∈ cache, r.contract = c := by
  unfold Tracker.unique_contracts
  rw [unique_contracts_fold_mem]
  simp

/-- The tick's work set lists each tracked contract exactly once. -/
theorem unique_contracts_nodup (cache : Cache) :
    (Tracker.unique_contracts cache).Nodup :=
  unique_contracts_fold_nodup cache [] List.nodup_nil

/-- A fan-out update for another contract leaves a row of this contract in
the cache unchanged. -/
theorem tick_fetch_step_of_ne (fetch : String → Option (ℚ × ℚ)) (cache : Cache)
    (c2 : String) (r : CacheRow) (hr : r ∈ Tracker.tick_fetch_step fetch cache c2)
    (hne : r.contract ≠ c2) : r ∈ cache := by
  unfold Tracker.tick_fetch_step at hr
  cases hf : fetch c2 with
  | none => rw [hf] at hr; exact hr
  | some v =>
    obtain ⟨m, p⟩ := v
    rw [hf] at hr
    have hr2 : r ∈ if 0 < m then Tracker.update_token_across_all_groups c2 m p cache
        else cache := hr
    by_cases hm : 0 < m
    · rw [if_pos hm] at hr2
      unfold Tracker.update_token_across_all_groups at hr2
      rcases List.mem_map.mp hr2 with ⟨r0, hr0, he⟩
      by_cases hc : r0.contract = c2
      · rw [if_pos hc] at he
        exfalso
        apply hne
        rw [← he]
        exact hc
      · rw [if_neg hc] at he
        rw [← he]
        exact hr0
    · rw [if_neg hm] at hr2
      exact hr2

/-- After a successful fetch's own fan-out step, every row of the contract
holds the fetched values. -/
theorem tick_fetch_step_self (fetch : String → Option (ℚ × ℚ)) (cache : Cache)
    (c : String) (m p : ℚ) (hf : fetch c = some (m, p)) (hm : 0 < m)
    (r : CacheRow) (hr : r ∈ Tracker.tick_fetch_step fetch cache c)
    (hc : r.contract = c) :
    r.data.currentMcap = m ∧ r.data.currentPrice = p := by
  unfold Tracker.tick_fetch_step at hr
  rw [hf] at hr
  have hr2 : r ∈ if 0 < m then Tracker.update_token_across_all_groups c m p cache
      else cache := hr
  rw [if_pos hm] at hr2
  unfold Tracker.update_token_across_all_groups at hr2
  rcases List.mem_map.mp hr2 with ⟨r0, _, he⟩
  by_cases hc0 : r0.contract = c
  · rw [if_pos hc0] at he
    rw [← he]
    exact ⟨rfl, rfl⟩
  · rw [if_neg hc0] at he
    rw [← he] at hc
    exact absurd hc hc0

/-- Steps for other contracts preserve the fetched values of this
contract's rows. -/
theorem tick_fold_preserve (fetch : String → Option (ℚ × ℚ)) (c : String) (m p : ℚ) :
    ∀ (cs : List String) (cache : Cache), c ∉ cs →
      (∀ r ∈ cache, r.contract = c → r.data.currentMcap = m ∧ r.data.currentPrice = p) →
      ∀ r ∈ cs.foldl (Tracker.tick_fetch_step fetch) cache, r.contract = c →
        r.data.currentMcap = m ∧ r.data.currentPrice = p := by
  intro cs
  induction cs with
  | nil => intro cache _ hcache r hr; exact hcache r hr
  | cons c0 rest ih =>
    intro cache hns hcache r hr hc
    have hne : c ≠ c0 := fun h => hns (by rw [h]; exact List.mem_cons_self c0 rest)
    have hrest : c ∉ rest := fun h => hns (List.mem_cons_of_mem c0 h)
    rw [List.foldl_cons] at hr
    refine ih (Tracker.tick_fetch_step fetch cache c0) hrest ?_ r hr hc
    intro r2 hr2 hc2
    have : r2 ∈ cache :=
      tick_fetch_step_of_ne fetch cache c0 r2 hr2 (by rw [hc2]; exact hne)
    exact hcache r2 this hc2

/-- After the whole update phase, every group's row of a successfully
fetched contract holds the fetched values. -/
theorem tick_update_phase_fresh (fetch : String → Option (ℚ × ℚ)) (cache : Cache)
    (c : String) (m p : ℚ) (hf : fetch c = some (m, p)) (hm : 0 < m)
    (htracked : ∃ r ∈ cache, r.contract = c) :
    ∀ r ∈ Tracker.tick_update_phase fetch cache, r.contract = c →
      r.data.currentMcap = m ∧ r.data.currentPrice = p := by
  have hmem : c ∈ Tracker.unique_contracts cache := (mem_unique_contracts cache c).mpr htracked
  have hnd : (Tracker.unique_contracts cache).Nodup := unique_contracts_nodup cache
  rcases List.append_of_mem hmem with ⟨l1, l2, he⟩
  unfold Tracker.tick_update_phase
  rw [he, List.foldl_append, List.foldl_cons]
  have hnotl2 : c ∉ l2 := by
    rw [he] at hnd
    exact (List.nodup_cons.mp hnd.of_append_right).1
  refine tick_fold_preserve fetch c m p l2 _ hnotl2 ?_
  intro r hr hc
  exact tick_fetch_step_self fetch _ c m p hf hm r hr hc

/-! Helper lemmas about observations and the per-pair alert checks. -/

/-- One observation only widens the extrema. -/
theorem apply_observation_widen (e : CacheEntry) (obs : Option (ℚ × ℚ)) :
    (Tracker.apply_observation e obs).lowestMcap ≤ e.lowestMcap ∧
    e.highestMcap ≤ (Tracker.apply_observation e obs).highestMcap := by
  cases obs with
  | none => exact ⟨le_refl _, le_refl _⟩
  | some v =>
    obtain ⟨m, p⟩ := v
    by_cases hm : 0 < m
    · have h : Tracker.apply_observation e (some (m, p)) = Tracker.apply_price_update m p e := by
        show (if 0 < m then Tracker.apply_price_update m p e else e) = Tracker.apply_price_update m p e
        rw [if_pos hm]
      rw [h]
      exact ⟨min_le_left _ _, le_max_left _ _⟩
    · have h : Tracker.apply_observation e (some (m, p)) = e := by
        show (if 0 < m then Tracker.apply_price_update m p e else e) = e
        rw [if_neg hm]
      rw [h]
      exact ⟨le_refl _, le_refl _⟩

/-- One observation preserves the sandwich invariant. -/
theorem apply_observation_sandwich (e : CacheEntry) (obs : Option (ℚ × ℚ))
    (h1 : e.lowestMcap ≤ e.currentMcap) (h2 : e.currentMcap ≤ e.highestMcap) :
    (Tracker.apply_observation e obs).lowestMcap ≤ (Tracker.apply_observation e obs).currentMcap ∧
    (Tracker.apply_observation e obs).currentMcap ≤ (Tracker.apply_observation e obs).highestMcap := by
  cases obs with
  | none => exact ⟨h1, h2⟩
  | some v =>
    obtain ⟨m, p⟩ := v
    by_cases hm : 0 < m
    · have h : Tracker.apply_observation e (some (m, p)) = Tracker.apply_price_update m p e := by
        show (if 0 < m then Tracker.apply_price_update m p e else e) = Tracker.apply_price_update m p e
        rw [if_pos hm]
      rw [h]
      exact ⟨min_le_right _ _, le_max_right _ _⟩
    · have h : Tracker.apply_observation e (some (m, p)) = e := by
        show (if 0 < m then Tracker.apply_price_update m p e else e) = e
        rw [if_neg hm]
      rw [h]
      exact ⟨h1, h2⟩

/-- Over any observation sequence the sandwich invariant holds and the
extrema only widen. -/
theorem run_observations_extrema :
    ∀ (l : List (Option (ℚ × ℚ))) (e : CacheEntry),
      e.lowestMcap ≤ e.currentMcap → e.currentMcap ≤ e.highestMcap →
      ((Tracker.run_observations e l).lowestMcap ≤ (Tracker.run_observations e l).currentMcap ∧
       (Tracker.run_observations e l).currentMcap ≤ (Tracker.run_observations e l).highestMcap) ∧
      (Tracker.run_observations e l).lowestMcap ≤ e.lowestMcap ∧
      e.highestMcap ≤ (Tracker.run_observations e l).highestMcap := by
  intro l
  induction l with
  | nil =>
    intro e h1 h2
    exact ⟨⟨h1, h2⟩, le_refl _, le_refl _⟩
  | cons obs rest ih =>
    intro e h1 h2
    have hw := apply_observation_widen e obs
    have hs := apply_observation_sandwich e obs h1 h2
    have h := ih (Tracker.apply_observation e obs) hs.1 hs.2
    have hrun : Tracker.run_observations e (obs :: rest)
        = Tracker.run_observations (Tracker.apply_observation e obs) rest := rfl
    rw [hrun]
    exact ⟨h.1, le_trans h.2.1 hw.1, le_trans hw.2 h.2.2⟩

/-- Multiplier check with a non-positive baseline: no alert, no change. -/
theorem check_multiplier_guard (cw now : ℕ) (lat : Tracker.LastAlertMap)
    (c : String) (g : ℤ) (e : CacheEntry) (sent : List ℚ)
    (hb : Tracker.baseline_mcap e ≤ 0) :
    Tracker.check_multiplier_alerts_for_group cw now lat c g e sent = ([], sent, lat) := by
  simp only [Tracker.check_multiplier_alerts_for_group]
  rw [if_pos hb]

/-- Multiplier check on cooldown: no alert, no change. -/
theorem check_multiplier_on_cooldown (cw now : ℕ) (lat : Tracker.LastAlertMap)
    (c : String) (g : ℤ) (e : CacheEntry) (sent : List ℚ)
    (hb : ¬ Tracker.baseline_mcap e ≤ 0)
    (hcd : Tracker.is_alert_on_cooldown cw now lat c g Tracker.multiplier_family = true) :
    Tracker.check_multiplier_alerts_for_group cw now lat c g e sent = ([], sent, lat) := by
  simp only [Tracker.check_multiplier_alerts_for_group]
  rw [if_neg hb, if_pos hcd]

/-- Multiplier check off cooldown with a positive baseline runs the
threshold loop. -/
theorem check_multiplier_fire (cw now : ℕ) (lat : Tracker.LastAlertMap)
    (c : String) (g : ℤ) (e : CacheEntry) (sent : List ℚ)
    (hb : ¬ Tracker.baseline_mcap e ≤ 0)
    (hcd : Tracker.is_alert_on_cooldown cw now lat c g Tracker.multiplier_family = false) :
    Tracker.check_multiplier_alerts_for_group cw now lat c g e sent =
      ((Tracker.fire_thresholds (fun lvl => decide (lvl ≤ e.currentMcap / Tracker.baseline_mcap e))
          Config.ALERT_MULTIPLIERS sent).1,
       (Tracker.fire_thresholds (fun lvl => decide (lvl ≤ e.currentMcap / Tracker.baseline_mcap e))
          Config.ALERT_MULTIPLIERS sent).2,
       if (Tracker.fire_thresholds (fun lvl => decide (lvl ≤ e.currentMcap / Tracker.baseline_mcap e))
            Config.ALERT_MULTIPLIERS sent).1 = [] then lat
       else Tracker.set_alert_cooldown now lat c g Tracker.multiplier_family) := by
  simp only [Tracker.check_multiplier_alerts_for_group]
  rw [if_neg hb, if_neg (by rw [hcd]; simp)]

/-- Loss check with a non-positive baseline: no alert, no change. -/
theorem check_loss_guard (cw now : ℕ) (lat : Tracker.LastAlertMap)
    (c : String) (g : ℤ) (e : CacheEntry)
    (hb : Tracker.baseline_mcap e ≤ 0) :
    Tracker.check_loss_alerts_for_group cw now lat c g e = ([], e, lat) := by
  simp only [Tracker.check_loss_alerts_for_group]
  rw [if_pos hb]

/-- Loss check on cooldown: no alert, no change. -/
theorem check_loss_on_cooldown (cw now : ℕ) (lat : Tracker.LastAlertMap)
    (c : String) (g : ℤ) (e : CacheEntry)
    (hb : ¬ Tracker.baseline_mcap e ≤ 0)
    (hcd : Tracker.is_alert_on_cooldown cw now lat c g Tracker.loss_family = true) :
    Tracker.check_loss_alerts_for_group cw now lat c g e = ([], e, lat) := by
  simp only [Tracker.check_loss_alerts_for_group]
  rw [if_neg hb, if_pos hcd]

/-- Loss check off cooldown with a positive baseline runs the threshold
loop. -/
theorem check_loss_fire (cw now : ℕ) (lat : Tracker.LastAlertMap)
    (c : String) (g : ℤ) (e : CacheEntry)
    (hb : ¬ Tracker.baseline_mcap e ≤ 0)
    (hcd : Tracker.is_alert_on_cooldown cw now lat c g Tracker.loss_family = false) :
    Tracker.check_loss_alerts_for_group cw now lat c g e =
      ((Tracker.fire_thresholds
          (fun lvl => decide ((e.currentMcap - Tracker.baseline_mcap e) / Tracker.baseline_mcap e * 100 ≤ lvl))
          Config.LOSS_THRESHOLDS e.lossAlertsSent).1,
       { e with lossAlertsSent :=
          (Tracker.fire_thresholds
            (fun lvl => decide ((e.currentMcap - Tracker.baseline_mcap e) / Tracker.baseline_mcap e * 100 ≤ lvl))
            Config.LOSS_THRESHOLDS e.lossAlertsSent).2 },
       if (Tracker.fire_thresholds
            (fun lvl => decide ((e.currentMcap - Tracker.baseline_mcap e) / Tracker.baseline_mcap e * 100 ≤ lvl))
            Config.LOSS_THRESHOLDS e.lossAlertsSent).1 = [] then lat
       else Tracker.set_alert_cooldown now lat c g Tracker.loss_family) := by
  simp only [Tracker.check_loss_alerts_for_group]
  rw [if_neg hb, if_neg (by rw [hcd]; simp)]

/-- Looking a key up past a differently keyed binding. -/
theorem last_alert_lookup_cons_ne (k2 k : Tracker.AlertKey) (t : ℕ)
    (lat : Tracker.LastAlertMap) (h : k2 ≠ k) :
    Tracker.last_alert_lookup ((k2, t) :: lat) k = Tracker.last_alert_lookup lat k := by
  simp only [Tracker.last_alert_lookup]
  rw [if_neg h]

/-! The claims. -/

/-- C1: in one refresh tick, a contract tracked with Active status in one or
more groups appears exactly once in the Price Provider work set (the dedup
union of distinct contracts across all groups), and after a successful fetch
every (contract, group) row of that contract holds the identical fetched
`current_mcap` and `current_price`. -/
theorem dedup_one_call_and_uniform_rows
    (fetch : String → Option (ℚ × ℚ)) (cache : Cache) (c : String) (m p : ℚ)
    (hf : fetch c = some (m, p)) (hm : 0 < m)
    (htracked : ∃ r ∈ cache, r.contract = c) :
    (Tracker.tick_provider_calls cache).count c = 1 ∧
    ∀ r ∈ Tracker.tick_update_phase fetch cache, r.contract = c →
      r.data.currentMcap = m ∧ r.data.currentPrice = p := by
  refine ⟨?_, tick_update_phase_fresh fetch cache c m p hf hm htracked⟩
  exact List.count_eq_one_of_mem (unique_contracts_nodup cache)
    ((mem_unique_contracts cache c).mpr htracked)

/-- Witness for C1 on a two-group cache tracking the same contract. -/
theorem dedup_one_call_and_uniform_rows_witness :
    (Tracker.tick_provider_calls exCache).count exContract = 1 ∧
    exUpdatedRowA.data.currentMcap = 2000 ∧ exUpdatedRowA.data.currentPrice = 2 := by
  have h := dedup_one_call_and_uniform_rows exFetch exCache exContract 2000 2
    (by decide) (by decide) (by decide)
  exact ⟨h.1, h.2 exUpdatedRowA (by decide) (by decide)⟩

/-- C7: after the first observation `highest_mcap ≥ current_mcap ≥
lowest_mcap` always holds; over any sequence of successful observations the
extrema are only widened (highest non-decreasing, lowest non-increasing),
failed observations change nothing, and a fresh entry starts with all three
values equal. -/
theorem extrema_monotone_invariant (e : CacheEntry) (l : List (Option (ℚ × ℚ)))
    (h1 : e.lowestMcap ≤ e.currentMcap) (h2 : e.currentMcap ≤ e.highestMcap) :
    ((Tracker.run_observations e l).lowestMcap ≤ (Tracker.run_observations e l).currentMcap ∧
     (Tracker.run_observations e l).currentMcap ≤ (Tracker.run_observations e l).highestMcap) ∧
    (Tracker.run_observations e l).lowestMcap ≤ e.lowestMcap ∧
    e.highestMcap ≤ (Tracker.run_observations e l).highestMcap ∧
    (∀ e2 : CacheEntry, Tracker.apply_observation e2 none = e2) ∧
    ∀ i : TokenInfo,
      (Tracker.fresh_cache_entry i).lowestMcap = (Tracker.fresh_cache_entry i).currentMcap ∧
      (Tracker.fresh_cache_entry i).currentMcap = (Tracker.fresh_cache_entry i).highestMcap := by
  have h := run_observations_extrema l e h1 h2
  exact ⟨h.1, h.2.1, h.2.2, fun e2 => rfl, fun i => ⟨rfl, rfl⟩⟩

/-- Witness for C7 on a concrete entry and observation sequence with one
failed fetch. -/
theorem extrema_monotone_invariant_witness :
    ((Tracker.run_observations exEntryA exObs).lowestMcap ≤
        (Tracker.run_observations exEntryA exObs).currentMcap ∧
     (Tracker.run_observations exEntryA exObs).currentMcap ≤
        (Tracker.run_observations exEntryA exObs).highestMcap) ∧
    (Tracker.run_observations exEntryA exObs).lowestMcap ≤ exEntryA.lowestMcap ∧
    exEntryA.highestMcap ≤ (Tracker.run_observations exEntryA exObs).highestMcap ∧
    Tracker.apply_observation exEntryB none = exEntryB ∧
    (Tracker.fresh_cache_entry exInfo).lowestMcap = (Tracker.fresh_cache_entry exInfo).currentMcap := by
  have h := extrema_monotone_invariant exEntryA exObs (by decide) (by decide)
  exact ⟨h.1, h.2.1, h.2.2.1, h.2.2.2.1 exEntryB, (h.2.2.2.2 exInfo).1⟩

/-- C8: the tick's alert evaluation is performed on the cache as it stands
after the whole update phase has completed for every fetched asset, so for a
successfully fetched contract every group's row evaluated by the alert phase
holds the same fresh fetched value — no group's decision sees a staler value
than another's. -/
theorem update_phase_before_alert_phase
    (fetch : String → Option (ℚ × ℚ)) (cw now : ℕ) (st : Tracker.AlertState)
    (cache : Cache) (c : String) (m p : ℚ)
    (hf : fetch c = some (m, p)) (hm : 0 < m)
    (htracked : ∃ r ∈ cache, r.contract = c) :
    Tracker.check_all_groups_tick fetch cw now st cache
        = Tracker.alert_phase cw now st (Tracker.tick_update_phase fetch cache) ∧
    (∀ r ∈ Tracker.tick_update_phase fetch cache, r.contract = c →
      r.data.currentMcap = m ∧ r.data.currentPrice = p) ∧
    ∀ r1 ∈ Tracker.tick_update_phase fetch cache,
      ∀ r2 ∈ Tracker.tick_update_phase fetch cache,
        r1.contract = c → r2.contract = c →
        r1.data.currentMcap = r2.data.currentMcap := by
  have hfresh := tick_update_phase_fresh fetch cache c m p hf hm htracked
  refine ⟨rfl, hfresh, ?_⟩
  intro r1 hm1 r2 hm2 hc1 hc2
  rw [(hfresh r1 hm1 hc1).1, (hfresh r2 hm2 hc2).1]

/-- Witness for C8 on the two-group cache. -/
theorem update_phase_before_alert_phase_witness :
    Tracker.check_all_groups_tick exFetch 60 0 ⟨[], [], []⟩ exCache
        = Tracker.alert_phase 60 0 ⟨[], [], []⟩ (Tracker.tick_update_phase exFetch exCache) ∧
    exUpdatedRowA.data.currentMcap = 2000 ∧ exUpdatedRowA.data.currentPrice = 2 := by
  have h := update_phase_before_alert_phase exFetch 60 0 ⟨[], [], []⟩ exCache exContract
    2000 2 (by decide) (by decide) (by decide)
  exact ⟨h.1, h.2.1 exUpdatedRowA (by decide) (by decide)⟩

/-- C2: registration records the baseline equal to the initial market cap
with confirmation count 1; a successful observation while the count is below
3 moves the baseline to the latest observed value and increments the count;
once the count has reached 3 the baseline never changes again.  On the
observation sequence 1000, 1050, 1200, 900 (registration being the first
observation) the baseline after the third observation is 1200 and the fourth
leaves it at 1200. -/
theorem baseline_confirmation_protocol :
    (∀ (c s n : String) (im ip : ℚ) (g : ℤ),
      (Database.fresh_token_row c s n im ip g).confirmedScanMcap = some im ∧
      (Database.fresh_token_row c s n im ip g).scanConfirmationCount = some 1) ∧
    (∀ (r : TokenRow) (m p : ℚ) (k : ℕ), r.scanConfirmationCount = some k → k < 3 →
      (Database.update_token_price_row m p r).confirmedScanMcap = some m ∧
      (Database.update_token_price_row m p r).scanConfirmationCount = some (k + 1)) ∧
    (∀ (r : TokenRow) (m p c : ℚ) (k : ℕ), r.scanConfirmationCount = some k → 3 ≤ k →
      r.confirmedScanMcap = some c → c ≠ 0 →
      (Database.update_token_price_row m p r).confirmedScanMcap = some c ∧
      (Database.update_token_price_row m p r).scanConfirmationCount = some k) ∧
    (c2row2.confirmedScanMcap = some 1200 ∧ c2row2.scanConfirmationCount = some 3 ∧
     c2row3.confirmedScanMcap = some 1200 ∧ c2row3.scanConfirmationCount = some 3) := by
  refine ⟨fun c s n im ip g => ⟨rfl, rfl⟩, ?_, ?_, by decide⟩
  · intro r m p k hk hlt
    constructor
    · simp only [Database.update_token_price_row, hk]
      rw [if_pos hlt]
    · simp only [Database.update_token_price_row, hk]
      rw [if_pos hlt]
  · intro r m p c k hk h3 hc hc0
    have hnlt : ¬ k < 3 := not_lt.mpr h3
    constructor
    · simp only [Database.update_token_price_row, hk, hc]
      rw [if_neg hnlt, if_neg hc0]
    · simp only [Database.update_token_price_row, hk]
      rw [if_neg hnlt]

/-- Witness for C2 on the concrete observation chain 1000, 1050, 1200, 900. -/
theorem baseline_confirmation_protocol_witness :
    (c2row0.confirmedScanMcap = some 1000 ∧ c2row0.scanConfirmationCount = some 1) ∧
    (c2row1.confirmedScanMcap = some 1050 ∧ c2row1.scanConfirmationCount = some 2) ∧
    (c2row3.confirmedScanMcap = some 1200 ∧ c2row3.scanConfirmationCount = some 3) ∧
    (c2row2.confirmedScanMcap = some 1200 ∧ c2row2.scanConfirmationCount = some 3 ∧
     c2row3.confirmedScanMcap = some 1200 ∧ c2row3.scanConfirmationCount = some 3) := by
  have h := baseline_confirmation_protocol
  exact ⟨h.1 exContract exSym exName 1000 1 7,
    h.2.1 c2row0 1050 1 1 rfl (by decide),
    h.2.2.1 c2row2 900 1 1200 3 (by decide) (by decide) (by decide) (by decide),
    h.2.2.2⟩

/-- C3 counterexample: the store write that persists one group's fired loss
set (`update_loss_alerts_sent` has no `chat_id` in its `WHERE` clause)
overwrites the other group's row of the same contract, dropping the
threshold `-50` that row had already fired. -/
theorem fired_sets_persist_overwrite_cex :
    (-50 : ℚ) ∈ c3rowB.lossAlertsSent ∧
    Database.update_loss_alerts_sent exContract [-30] c3db
      = [{ c3rowA with lossAlertsSent := [-30] }, { c3rowB with lossAlertsSent := [-30] }] ∧
    (-50 : ℚ) ∉ ({ c3rowB with lossAlertsSent := [(-30 : ℚ)] }).lossAlertsSent := by
  decide

/-- C3 amended: the in-memory fired sets are append-only per (contract,
group) row and a threshold already in a row's set never fires again for that
row; the persisting store writes, however, set the fired column of every row
of the contract (all groups) to the given list, so they preserve the
triggering row's elements but can drop elements from another group's
persisted row. -/
theorem fired_sets_append_only_amended
    (cw now : ℕ) (lat : Tracker.LastAlertMap) (c : String) (g : ℤ) (e : CacheEntry)
    (sent ms ls : List ℚ) (db : List TokenRow) :
    (∀ L ∈ sent, L ∈ (Tracker.check_multiplier_alerts_for_group cw now lat c g e sent).2.1) ∧
    (∀ L ∈ (Tracker.check_multiplier_alerts_for_group cw now lat c g e sent).1, L ∉ sent) ∧
    (∀ L ∈ e.lossAlertsSent,
      L ∈ (Tracker.check_loss_alerts_for_group cw now lat c g e).2.1.lossAlertsSent) ∧
    (∀ L ∈ (Tracker.check_loss_alerts_for_group cw now lat c g e).1, L ∉ e.lossAlertsSent) ∧
    (∀ r ∈ Database.update_multipliers_alerted c ms db, r.contractAddress = c →
      r.multipliersAlerted = ms) ∧
    (∀ r ∈ Database.update_loss_alerts_sent c ls db, r.contractAddress = c →
      r.lossAlertsSent = ls) := by
  refine ⟨?_, ?_, ?_, ?_, ?_, ?_⟩
  · intro L hL
    by_cases hb : Tracker.baseline_mcap e ≤ 0
    · rw [check_multiplier_guard cw now lat c g e sent hb]
      exact hL
    · cases hcd : Tracker.is_alert_on_cooldown cw now lat c g Tracker.multiplier_family with
      | true =>
        rw [check_multiplier_on_cooldown cw now lat c g e sent hb hcd]
        exact hL
      | false =>
        rw [check_multiplier_fire cw now lat c g e sent hb hcd]
        exact (fire_thresholds_snd_mem _ _ _ alert_multipliers_nodup L).mpr (Or.inl hL)
  · intro L hL
    by_cases hb : Tracker.baseline_mcap e ≤ 0
    · rw [check_multiplier_guard cw now lat c g e sent hb] at hL
      simp at hL
    · cases hcd : Tracker.is_alert_on_cooldown cw now lat c g Tracker.multiplier_family with
      | true =>
        rw [check_multiplier_on_cooldown cw now lat c g e sent hb hcd] at hL
        simp at hL
      | false =>
        rw [check_multiplier_fire cw now lat c g e sent hb hcd] at hL
        rw [fire_thresholds_fst _ _ _ alert_multipliers_nodup] at hL
        have := (List.mem_filter.mp hL).2
        simp only [Bool.and_eq_true, decide_eq_true_eq] at this
        exact this.2
  · intro L hL
    by_cases hb : Tracker.baseline_mcap e ≤ 0
    · rw [check_loss_guard cw now lat c g e hb]
      exact hL
    · cases hcd : Tracker.is_alert_on_cooldown cw now lat c g Tracker.loss_family with
      | true =>
        rw [check_loss_on_cooldown cw now lat c g e hb hcd]
        exact hL
      | false =>
        rw [check_loss_fire cw now lat c g e hb hcd]
        exact (fire_thresholds_snd_mem _ _ _ loss_thresholds_nodup L).mpr (Or.inl hL)
  · intro L hL
    by_cases hb : Tracker.baseline_mcap e ≤ 0
    · rw [check_loss_guard cw now lat c g e hb] at hL
      simp at hL
    · cases hcd : Tracker.is_alert_on_cooldown cw now lat c g Tracker.loss_family with
      | true =>
        rw [check_loss_on_cooldown cw now lat c g e hb hcd] at hL
        simp at hL
      | false =>
        rw [check_loss_fire cw now lat c g e hb hcd] at hL
        rw [fire_thresholds_fst _ _ _ loss_thresholds_nodup] at hL
        have := (List.mem_filter.mp hL).2
        simp only [Bool.and_eq_true, decide_eq_true_eq] at this
        exact this.2
  · intro r hr hc
    unfold Database.update_multipliers_alerted at hr
    rcases List.mem_map.mp hr with ⟨r0, hr0, he⟩
    by_cases h0 : r0.contractAddress = c
    · rw [if_pos h0] at he
      rw [← he]
    · rw [if_neg h0] at he
      rw [← he] at hc
      exact absurd hc h0
  · intro r hr hc
    unfold Database.update_loss_alerts_sent at hr
    rcases List.mem_map.mp hr with ⟨r0, hr0, he⟩
    by_cases h0 : r0.contractAddress = c
    · rw [if_pos h0] at he
      rw [← he]
    · rw [if_neg h0] at he
      rw [← he] at hc
      exact absurd hc h0

/-- Witness for the amended C3 on a concrete pass and store write. -/
theorem fired_sets_append_only_amended_witness :
    (2 : ℚ) ∈ (Tracker.check_multiplier_alerts_for_group 60 0 [] exContract 1 exEntry [2]).2.1 ∧
    ({ c3rowA with lossAlertsSent := [(-30 : ℚ)] } : TokenRow).lossAlertsSent = [-30] := by
  have h := fired_sets_append_only_amended 60 0 [] exContract 1 exEntry [2] [2] [-30] c3db
  refine ⟨h.1 2 (by decide), ?_⟩
  exact h.2.2.2.2.2 { c3rowA with lossAlertsSent := [(-30 : ℚ)] } (by decide) (by decide)

/-- C4 counterexample: `AUTO_REMOVE_THRESHOLD = -80` is not strictly more
severe than every configured loss-alert level — the levels `-80`, `-85` and
`-95` refute `AUTO_REMOVE_THRESHOLD < L` for all `L` in the list. -/
theorem auto_remove_threshold_comparison_cex :
    (-80 : ℚ) ∈ Config.LOSS_THRESHOLDS ∧ ¬ Config.AUTO_REMOVE_THRESHOLD < (-80 : ℚ) ∧
    (-85 : ℚ) ∈ Config.LOSS_THRESHOLDS ∧ ¬ Config.AUTO_REMOVE_THRESHOLD < (-85 : ℚ) ∧
    (-95 : ℚ) ∈ Config.LOSS_THRESHOLDS ∧ ¬ Config.AUTO_REMOVE_THRESHOLD < (-95 : ℚ) := by
  decide

/-- C4 amended: loss-based auto-removal deactivates every Active row with a
known positive `current_mcap` whose baseline-relative loss is at or below
`AUTO_REMOVE_THRESHOLD` (and emits its removal notice); the threshold, -80,
is strictly more severe than the three mildest loss-alert levels (-30, -50,
-70) but coincides with the -80 level and is milder than -85 and -95. -/
theorem auto_remove_behavior_amended
    (db : List TokenRow) (r : TokenRow) (hr : r ∈ db)
    (hc : Database.auto_remove_condition Config.AUTO_REMOVE_THRESHOLD r = true) :
    Database.auto_removed_row r
        ∈ (Database.auto_remove_rugged_tokens Config.AUTO_REMOVE_THRESHOLD db).1 ∧
    (Database.auto_removed_row r).isActive = false ∧
    Database.removed_token_info r
        ∈ (Database.auto_remove_rugged_tokens Config.AUTO_REMOVE_THRESHOLD db).2 ∧
    Config.AUTO_REMOVE_THRESHOLD < (-30 : ℚ) ∧ Config.AUTO_REMOVE_THRESHOLD < (-50 : ℚ) ∧
    Config.AUTO_REMOVE_THRESHOLD < (-70 : ℚ) ∧ Config.AUTO_REMOVE_THRESHOLD = (-80 : ℚ) ∧
    (-85 : ℚ) < Config.AUTO_REMOVE_THRESHOLD ∧ (-95 : ℚ) < Config.AUTO_REMOVE_THRESHOLD := by
  refine ⟨?_, rfl, ?_, by decide, by decide, by decide, rfl, by decide, by decide⟩
  · refine List.mem_map.mpr ⟨r, hr, ?_⟩
    rw [if_pos hc]
  · exact List.mem_map.mpr ⟨r, List.mem_filter.mpr ⟨hr, hc⟩, rfl⟩

/-- Witness for the amended C4 on a concrete row 90 percent under its
baseline. -/
theorem auto_remove_behavior_amended_witness :
    Database.auto_removed_row c4row
        ∈ (Database.auto_remove_rugged_tokens Config.AUTO_REMOVE_THRESHOLD [c4row]).1 ∧
    (Database.auto_removed_row c4row).isActive = false ∧
    Config.AUTO_REMOVE_THRESHOLD = (-80 : ℚ) := by
  have hc : Database.auto_remove_condition Config.AUTO_REMOVE_THRESHOLD c4row = true := by
    norm_num [Database.auto_remove_condition, c4row, Database.fresh_token_row,
      Config.AUTO_REMOVE_THRESHOLD]
  have h := auto_remove_behavior_amended [c4row] c4row (List.mem_singleton.mpr rfl) hc
  exact ⟨h.1, h.2.1, h.2.2.2.2.2.2.1⟩

/-- C5: in one evaluation pass for a row with positive baseline (off
cooldown), the fired multiplier levels are exactly the configured levels at
or below the current multiplier that are not already in the fired set — all
newly-crossed levels in the same tick — and a subsequent pass at the same
current value fires nothing further. -/
theorem multiplier_levels_fire_once
    (cw now : ℕ) (lat : Tracker.LastAlertMap) (c : String) (g : ℤ) (e : CacheEntry)
    (sent : List ℚ) (hb : 0 < Tracker.baseline_mcap e)
    (hcd : Tracker.is_alert_on_cooldown cw now lat c g Tracker.multiplier_family = false) :
    (Tracker.check_multiplier_alerts_for_group cw now lat c g e sent).1
      = Config.ALERT_MULTIPLIERS.filter
          (fun L => decide (L ≤ e.currentMcap / Tracker.baseline_mcap e) && decide (L ∉ sent)) ∧
    ∀ (cw2 now2 : ℕ) (lat2 : Tracker.LastAlertMap),
      (Tracker.check_multiplier_alerts_for_group cw2 now2 lat2 c g e
        (Tracker.check_multiplier_alerts_for_group cw now lat c g e sent).2.1).1 = [] := by
  have hb2 : ¬ Tracker.baseline_mcap e ≤ 0 := not_le.mpr hb
  have hsnd : (Tracker.check_multiplier_alerts_for_group cw now lat c g e sent).2.1
      = (Tracker.fire_thresholds (fun lvl => decide (lvl ≤ e.currentMcap / Tracker.baseline_mcap e))
          Config.ALERT_MULTIPLIERS sent).2 := by
    rw [check_multiplier_fire cw now lat c g e sent hb2 hcd]
  constructor
  · rw [check_multiplier_fire cw now lat c g e sent hb2 hcd]
    exact fire_thresholds_fst _ _ _ alert_multipliers_nodup
  · intro cw2 now2 lat2
    rw [hsnd]
    cases hcd2 : Tracker.is_alert_on_cooldown cw2 now2 lat2 c g Tracker.multiplier_family with
    | true => rw [check_multiplier_on_cooldown cw2 now2 lat2 c g e _ hb2 hcd2]
    | false =>
      rw [check_multiplier_fire cw2 now2 lat2 c g e _ hb2 hcd2]
      exact fire_thresholds_idem _ _ _ alert_multipliers_nodup

/-- Witness for C5: baseline 1000000, jump to 6000000 fires exactly the
levels 2, 3, 5 in one pass, and a second pass at the same value fires
nothing. -/
theorem multiplier_levels_fire_once_witness :
    (Tracker.check_multiplier_alerts_for_group 60 0 [] exContract 1 exEntry []).1 = [2, 3, 5] ∧
    (Tracker.check_multiplier_alerts_for_group 60 100 [] exContract 1 exEntry
      (Tracker.check_multiplier_alerts_for_group 60 0 [] exContract 1 exEntry []).2.1).1 = [] := by
  have hb : 0 < Tracker.baseline_mcap exEntry := by norm_num [Tracker.baseline_mcap, exEntry]
  have h := multiplier_levels_fire_once 60 0 [] exContract 1 exEntry [] hb rfl
  have hdiv : exEntry.currentMcap / Tracker.baseline_mcap exEntry = 6 := by
    norm_num [Tracker.baseline_mcap, exEntry]
  refine ⟨?_, h.2 60 100 []⟩
  rw [h.1, hdiv]
  decide

/-- C6: when a family — multiplier, loss or rug — is on cooldown at the
start of its evaluation, no alert of that family is produced and neither the
fired sets nor the cooldown map change; once any family's window has elapsed
its cooldown check is off, and a still-pending crossed threshold of the
multiplier or loss family then fires; and the cooldown of one family is
untouched by stamping another family of the same (contract, group). -/
theorem cooldown_gate_properties
    (cw now t1 : ℕ) (lat : Tracker.LastAlertMap) (c : String) (g : ℤ) (e : CacheEntry)
    (sent : List ℚ) (rugSent : List (String × ℤ)) (lossPct : ℚ) :
    (Tracker.is_alert_on_cooldown cw now lat c g Tracker.multiplier_family = true →
      Tracker.check_multiplier_alerts_for_group cw now lat c g e sent = ([], sent, lat)) ∧
    (Tracker.is_alert_on_cooldown cw now lat c g Tracker.loss_family = true →
      Tracker.check_loss_alerts_for_group cw now lat c g e = ([], e, lat)) ∧
    (Tracker.is_alert_on_cooldown cw now lat c g Tracker.rug_family = true →
      Tracker.check_rug_detection_alert cw now lat rugSent c g lossPct
        = (false, rugSent, lat)) ∧
    (∀ fam : String, Tracker.last_alert_lookup lat (c, g, fam) = some t1 →
      t1 + cw ≤ now →
      Tracker.is_alert_on_cooldown cw now lat c g fam = false) ∧
    (∀ L ∈ Config.ALERT_MULTIPLIERS,
      Tracker.is_alert_on_cooldown cw now lat c g Tracker.multiplier_family = false →
      0 < Tracker.baseline_mcap e → L ≤ e.currentMcap / Tracker.baseline_mcap e → L ∉ sent →
      L ∈ (Tracker.check_multiplier_alerts_for_group cw now lat c g e sent).1) ∧
    (∀ L ∈ Config.LOSS_THRESHOLDS,
      Tracker.is_alert_on_cooldown cw now lat c g Tracker.loss_family = false →
      0 < Tracker.baseline_mcap e →
      (e.currentMcap - Tracker.baseline_mcap e) / Tracker.baseline_mcap e * 100 ≤ L →
      L ∉ e.lossAlertsSent →
      L ∈ (Tracker.check_loss_alerts_for_group cw now lat c g e).1) ∧
    ∀ (fam fam2 : String) (now2 : ℕ), fam ≠ fam2 →
      Tracker.is_alert_on_cooldown cw now
          (Tracker.set_alert_cooldown now2 lat c g fam2) c g fam
        = Tracker.is_alert_on_cooldown cw now lat c g fam := by
  refine ⟨?_, ?_, ?_, ?_, ?_, ?_, ?_⟩
  · intro hcd
    by_cases hb : Tracker.baseline_mcap e ≤ 0
    · exact check_multiplier_guard cw now lat c g e sent hb
    · exact check_multiplier_on_cooldown cw now lat c g e sent hb hcd
  · intro hcd
    by_cases hb : Tracker.baseline_mcap e ≤ 0
    · exact check_loss_guard cw now lat c g e hb
    · exact check_loss_on_cooldown cw now lat c g e hb hcd
  · intro hcd
    unfold Tracker.check_rug_detection_alert
    by_cases hloss : lossPct ≤ Config.RUG_DETECTION_THRESHOLD
    · rw [if_pos hloss]
      by_cases hmem : (c, g) ∈ rugSent
      · rw [if_pos hmem]
      · rw [if_neg hmem, if_pos hcd]
    · rw [if_neg hloss]
  · intro fam hlook helapsed
    simp only [Tracker.is_alert_on_cooldown, hlook]
    simp only [decide_eq_false_iff_not]
    omega
  · intro L hL hcd hb hle hns
    rw [check_multiplier_fire cw now lat c g e sent (not_le.mpr hb) hcd]
    rw [fire_thresholds_fst _ _ _ alert_multipliers_nodup]
    exact List.mem_filter.mpr ⟨hL, by simp [hle, hns]⟩
  · intro L hL hcd hb hle hns
    rw [check_loss_fire cw now lat c g e (not_le.mpr hb) hcd]
    rw [fire_thresholds_fst _ _ _ loss_thresholds_nodup]
    exact List.mem_filter.mpr ⟨hL, by simp [hle, hns]⟩
  · intro fam fam2 now2 hne
    unfold Tracker.is_alert_on_cooldown Tracker.set_alert_cooldown
    rw [last_alert_lookup_cons_ne (c, g, fam2) (c, g, fam) now2 lat
      (fun h => hne ((congrArg (fun k : Tracker.AlertKey => k.2.2) h).symm))]

/-- Witness for C6: with the multiplier (resp. rug) family stamped at time 0
and a 60 second window, evaluation at time 30 is suppressed with nothing
changed for each family; at time 100 the multiplier window has elapsed and
the still-pending level 2 fires; a pending -50 loss level fires off
cooldown; and stamping the loss family leaves the multiplier cooldown
unchanged. -/
theorem cooldown_gate_properties_witness :
    Tracker.check_multiplier_alerts_for_group 60 30 exLat exContract 1 exEntry []
      = ([], [], exLat) ∧
    Tracker.check_rug_detection_alert 60 30 exLatRug [] exContract 1 (-95)
      = (false, [], exLatRug) ∧
    Tracker.is_alert_on_cooldown 60 100 exLat exContract 1 Tracker.multiplier_family = false ∧
    (2 : ℚ) ∈ (Tracker.check_multiplier_alerts_for_group 60 100 exLat exContract 1 exEntry []).1 ∧
    (-50 : ℚ) ∈ (Tracker.check_loss_alerts_for_group 60 0 [] exContract 1 exLossEntry).1 ∧
    Tracker.is_alert_on_cooldown 60 30
        (Tracker.set_alert_cooldown 29 exLat exContract 1 Tracker.loss_family)
        exContract 1 Tracker.multiplier_family
      = Tracker.is_alert_on_cooldown 60 30 exLat exContract 1 Tracker.multiplier_family := by
  have h1 := cooldown_gate_properties 60 30 0 exLat exContract 1 exEntry [] [] (-95)
  have h2 := cooldown_gate_properties 60 100 0 exLat exContract 1 exEntry [] [] (-95)
  have h3 := cooldown_gate_properties 60 30 0 exLatRug exContract 1 exEntry [] [] (-95)
  have h4 := cooldown_gate_properties 60 0 0 [] exContract 1 exLossEntry [] [] (-95)
  have hb : 0 < Tracker.baseline_mcap exEntry := by norm_num [Tracker.baseline_mcap, exEntry]
  have hle : (2 : ℚ) ≤ exEntry.currentMcap / Tracker.baseline_mcap exEntry := by
    norm_num [Tracker.baseline_mcap, exEntry]
  have hbl : 0 < Tracker.baseline_mcap exLossEntry := by
    norm_num [Tracker.baseline_mcap, exLossEntry]
  have hll : (exLossEntry.currentMcap - Tracker.baseline_mcap exLossEntry)
      / Tracker.baseline_mcap exLossEntry * 100 ≤ (-50 : ℚ) := by
    norm_num [Tracker.baseline_mcap, exLossEntry]
  have hexp : Tracker.is_alert_on_cooldown 60 100 exLat exContract 1
      Tracker.multiplier_family = false :=
    h2.2.2.2.1 Tracker.multiplier_family (by decide) (by norm_num)
  exact ⟨h1.1 (by decide), h3.2.2.1 (by decide), hexp,
    h2.2.2.2.2.1 2 (by decide) hexp hb hle (by decide),
    h4.2.2.2.2.2.1 (-50) (by decide) rfl hbl hll (by decide),
    h1.2.2.2.2.2.2 Tracker.multiplier_family Tracker.loss_family 29 (by decide)⟩

/-- C9: registration queries the Price Provider at most three times,
stopping at the first valid reading; when every attempt yields a
non-positive market cap it makes exactly three calls and returns the
no-market-data failure synchronously, with no row persisted to the store
and nothing added to the tracking cache (the enhanced tracker's single-call
registration fails equally cleanly). -/
theorem registration_bounded_retry_no_partial_row
    (r1 r2 r3 resp : Option TokenInfo) (contract : String) (chatId : ℤ)
    (tracking : List (String × CacheEntry)) (cache : Cache) (db db2 : List TokenRow)
    (hnt : contract ∉ tracking.map Prod.fst)
    (hinv : valid_info r1 = false ∧ valid_info r2 = false ∧ valid_info r3 = false) :
    (∀ (b : Bool) (s1 s2 : Option TokenInfo), LegacyTracker.provider_calls b s1 s2 ≤ 3) ∧
    LegacyTracker.provider_calls false r1 r2 = 3 ∧
    LegacyTracker.add_token r1 r2 r3 contract chatId tracking db
        = (RegResult.noMarketData, tracking, db) ∧
    (∀ s1 s2 : Option TokenInfo, valid_info s1 = true →
      LegacyTracker.provider_calls false s1 s2 = 1) ∧
    (valid_info resp = false → ¬(∃ r ∈ cache, r.chatId = chatId ∧ r.contract = contract) →
      Tracker.add_token resp contract chatId cache db2
        = (RegResult.noMarketData, cache, db2)) := by
  refine ⟨?_, ?_, ?_, ?_, ?_⟩
  · intro b s1 s2
    unfold LegacyTracker.provider_calls
    split
    · omega
    · split
      · omega
      · split <;> omega
  · simp [LegacyTracker.provider_calls, hinv.1, hinv.2.1]
  · have hfv : LegacyTracker.first_valid_info r1 r2 r3 = r3 := by
      simp [LegacyTracker.first_valid_info, hinv.1, hinv.2.1, hinv.2.2]
    unfold LegacyTracker.add_token
    rw [if_neg hnt, hfv]
    cases hr3 : r3 with
    | none => rfl
    | some i =>
      have hmi : ¬ 0 < i.marketCap := by
        have := hinv.2.2
        rw [hr3] at this
        simpa [valid_info] using this
      show (if 0 < i.marketCap then _ else (RegResult.noMarketData, tracking, db))
          = (RegResult.noMarketData, tracking, db)
      rw [if_neg hmi]
  · intro s1 s2 hs1
    simp [LegacyTracker.provider_calls, hs1]
  · intro hresp hninc
    unfold Tracker.add_token
    rw [if_neg hninc]
    cases hre : resp with
    | none => rfl
    | some i =>
      have hmi : ¬ 0 < i.marketCap := by
        rw [hre] at hresp
        simpa [valid_info] using hresp
      show (if 0 < i.marketCap then _ else (RegResult.noMarketData, cache, db2))
          = (RegResult.noMarketData, cache, db2)
      rw [if_neg hmi]

/-- Witness for C9: three empty provider responses on a fresh tracker leave
the store and cache empty and return the no-market-data failure. -/
theorem registration_bounded_retry_no_partial_row_witness :
    LegacyTracker.provider_calls false none none = 3 ∧
    LegacyTracker.add_token none none none exContract 1 [] []
        = (RegResult.noMarketData, [], []) ∧
    Tracker.add_token none exContract 1 [] [] = (RegResult.noMarketData, [], []) := by
  have h := registration_bounded_retry_no_partial_row none none none none exContract 1
    [] [] [] [] (by decide) ⟨rfl, rfl, rfl⟩
  exact ⟨h.2.1, h.2.2.1, h.2.2.2.2 rfl (by decide)⟩

/-- C10: at the store level `add_token` never fails on an existing
(contract, chat) row — the `INSERT OR REPLACE` drops any row with that key
and inserts the fresh row, whose baseline, confirmation count, extrema and
fired-threshold sets are reset to initial values — while rows under other
keys are kept; the `AlreadyTracked` rejection is decided only against the
in-memory cache, so with the pair absent from the cache the registration
proceeds and writes the store even when the store already holds the pair. -/
theorem store_add_replace_semantics
    (contract symbol name : String) (im ip : ℚ) (chatId : ℤ) (db db2 : List TokenRow)
    (cache : Cache) (i : TokenInfo) :
    (∀ r ∈ Database.add_token contract symbol name im ip chatId db,
      r.contractAddress = contract ∧ r.chatId = chatId →
      r = Database.fresh_token_row contract symbol name im ip chatId) ∧
    Database.fresh_token_row contract symbol name im ip chatId
        ∈ Database.add_token contract symbol name im ip chatId db ∧
    ((Database.fresh_token_row contract symbol name im ip chatId).confirmedScanMcap = some im ∧
     (Database.fresh_token_row contract symbol name im ip chatId).scanConfirmationCount = some 1 ∧
     (Database.fresh_token_row contract symbol name im ip chatId).multipliersAlerted = [] ∧
     (Database.fresh_token_row contract symbol name im ip chatId).lossAlertsSent = [] ∧
     (Database.fresh_token_row contract symbol name im ip chatId).highestMcap = some im ∧
     (Database.fresh_token_row contract symbol name im ip chatId).lowestMcap = some im ∧
     (Database.fresh_token_row contract symbol name im ip chatId).isActive = true) ∧
    (∀ r ∈ db, ¬(r.contractAddress = contract ∧ r.chatId = chatId) →
      r ∈ Database.add_token contract symbol name im ip chatId db) ∧
    (¬(∃ r ∈ cache, r.chatId = chatId ∧ r.contract = contract) → 0 < i.marketCap →
      Tracker.add_token (some i) contract chatId cache db2
        = (RegResult.ok,
           cache ++ [{ chatId := chatId, contract := contract,
                       data := Tracker.fresh_cache_entry i }],
           Database.add_token contract i.symbol i.name i.marketCap i.price chatId db2)) ∧
    ((∃ r ∈ cache, r.chatId = chatId ∧ r.contract = contract) →
      Tracker.add_token (some i) contract chatId cache db2
        = (RegResult.alreadyTracked, cache, db2)) := by
  refine ⟨?_, ?_, ⟨rfl, rfl, rfl, rfl, rfl, rfl, rfl⟩, ?_, ?_, ?_⟩
  · intro r hr hkey
    unfold Database.add_token at hr
    rcases List.mem_append.mp hr with hr | hr
    · have := (List.mem_filter.mp hr).2
      rw [decide_eq_true_eq] at this
      exact absurd hkey this
    · exact List.mem_singleton.mp hr
  · exact List.mem_append.mpr (Or.inr (List.mem_singleton.mpr rfl))
  · intro r hr hkey
    unfold Database.add_token
    exact List.mem_append.mpr (Or.inl (List.mem_filter.mpr ⟨hr, decide_eq_true hkey⟩))
  · intro hninc hm
    unfold Tracker.add_token
    rw [if_neg hninc]
    show (if 0 < i.marketCap then _ else _) = _
    rw [if_pos hm]
  · intro hinc
    unfold Tracker.add_token
    rw [if_pos hinc]

/-- Witness for C10: re-adding the key (contract, chat 7) over a store that
already holds a row for it with fired thresholds succeeds and yields the
fresh replacement row. -/
theorem store_add_replace_semantics_witness :
    Database.fresh_token_row exContract exSym exName 1000 1 7
        ∈ Database.add_token exContract exSym exName 1000 1 7 c10db ∧
    Tracker.add_token (some exInfo) exContract 7 [] c10db
      = (RegResult.ok,
         [{ chatId := 7, contract := exContract, data := Tracker.fresh_cache_entry exInfo }],
         Database.add_token exContract exInfo.symbol exInfo.name exInfo.marketCap
           exInfo.price 7 c10db) := by
  have h := store_add_replace_semantics exContract exSym exName 1000 1 7 c10db c10db [] exInfo
  exact ⟨h.2.1, h.2.2.2.2.1 (by decide) (by decide)⟩
